import Mathlib

/-!
# Verification of the coaching-portal relay server (`server.js`)

A shallow embedding of the Express relay server in `server.js`.  Each HTTP
handler is modelled as a pure function from the process environment, the
parsed JSON request body fields it destructures, and the outcome of its one
upstream provider call, to the HTTP response it sends (status code plus JSON
body).  JavaScript truthiness, template-literal stringification, and
`JSON.stringify` dropping `undefined`-valued fields are modelled explicitly.

Third-party client behaviour that the handlers rely on is modelled from the
libraries' documented behaviour and is marked as such in doc comments
(`@supabase/supabase-js` `createClient` validation and `getPublicUrl` URL
construction; `googleapis` clients rejecting with an error on non-2xx).
-/

namespace Relay

/-- JSON values, as produced by `JSON.parse` / consumed by `res.json`.
Numbers are modelled as integers (no fractional values occur in the
handlers). -/
inductive Json where
  | null : Json
  | bool : Bool → Json
  | num : Int → Json
  | str : String → Json
  | arr : List Json → Json
  | obj : List (String × Json) → Json
deriving Repr

/-- JavaScript truthiness of a defined JSON value: `null`, `false`, `0` and
`""` are falsy; every array and object is truthy. -/
def Json.truthy : Json → Bool
  | .null => false
  | .bool b => b
  | .num n => n != 0
  | .str s => s != ""
  | .arr _ => true
  | .obj _ => true

/-- JavaScript truthiness of a possibly-absent (`undefined`) value, as used
by the handlers' `!x` and `x ? _ : _` tests on destructured body fields. -/
def optTruthy : Option Json → Bool
  | none => false
  | some j => j.truthy

/-- Truthiness of an environment variable: absent (`undefined`) or the empty
string are falsy; any other string is truthy.  This is the semantics of the
`!META_WABA_TOKEN`-style configuration guards. -/
def envTruthy : Option String → Bool
  | none => false
  | some s => s != ""

/-- Template-literal stringification of an environment variable
(`undefined` interpolates as the string "undefined"). -/
def envStr : Option String → String
  | none => "undefined"
  | some s => s

mutual
/-- JavaScript `ToString` on a JSON value, as performed by template-literal
interpolation: arrays join their elements with commas (`null` joining as the
empty string), objects stringify as "[object Object]". -/
def Json.jsToString : Json → String
  | .null => "null"
  | .bool b => if b then "true" else "false"
  | .num n => toString n
  | .str s => s
  | .arr l => String.intercalate "," (Json.jsToStringArrElems l)
  | .obj _ => "[object Object]"

/-- Stringification of array elements for `Array.prototype.toString`
(`null` elements render as the empty string). -/
def Json.jsToStringArrElems : List Json → List String
  | [] => []
  | .null :: rest => "" :: Json.jsToStringArrElems rest
  | j :: rest => Json.jsToString j :: Json.jsToStringArrElems rest
end

/-- Template-literal stringification of a possibly-absent body field
(`undefined` interpolates as "undefined"). -/
def jsFieldToString : Option Json → String
  | none => "undefined"
  | some j => j.jsToString

/-- An object field whose value may be `undefined`: `JSON.stringify` (used
by `res.json` and by `fetch` body serialization) drops such fields. -/
def optField (name : String) : Option Json → List (String × Json)
  | none => []
  | some v => [(name, v)]

/-- Property access `j.name` on a JSON value: a lookup on objects,
`undefined` (`none`) on every other value. -/
def Json.getField : Json → String → Option Json
  | .obj fs, name => fs.lookup name
  | _, _ => none

/-- Index access `j[i]` on a JSON value: element lookup on arrays,
`undefined` (`none`) otherwise. -/
def Json.getIndex : Json → Nat → Option Json
  | .arr l, i => l.get? i
  | _, _ => none

/-- The environment variables destructured from `process.env` at lines
27-33 of `server.js`.  `none` models an unset variable. -/
structure Env where
  META_WABA_TOKEN : Option String
  META_PHONE_NUMBER_ID : Option String
  SUPABASE_URL : Option String
  SUPABASE_SERVICE_KEY : Option String
  GCP_PROJECT_EMAIL : Option String
  GCP_PRIVATE_KEY : Option String
  CALENDAR_ID : Option String
  SHEET_ID : Option String
  GEMINI_API_KEY : Option String
deriving Repr

/-- An HTTP response as sent by `res.status(s).json(b)`; `res.json(b)`
alone uses status 200. -/
structure HttpResponse where
  status : Nat
  body : Json
deriving Repr

/-- The uniform failure body `{ ok: false, error: msg }`. -/
def failureEnvelope (msg : String) : Json :=
  .obj [("ok", .bool false), ("error", .str msg)]

/-- `Response.ok` of the Fetch API: status in the inclusive range 200-299. -/
def fetchOk (status : Nat) : Bool :=
  200 ≤ status && status ≤ 299

/-- Outcome of an awaited `fetch` + `r.json()` pair: either the upstream
responded with some status and parsed JSON body, or an exception was thrown
locally (network failure, JSON parse failure) carrying `e.message`. -/
inductive FetchOutcome where
  | response (status : Nat) (body : Json)
  | throw (msg : String)
deriving Repr

/-- One run of a handler with upstream-request type `ρ`: either it responded
before attempting any upstream call, or it attempted exactly one upstream
call described by `req` and then responded. -/
inductive HandlerRun (ρ : Type) where
  | early (resp : HttpResponse)
  | called (req : ρ) (resp : HttpResponse)
deriving Repr

/-- The response of a run, regardless of whether a call was made. -/
def HandlerRun.resp {ρ : Type} : HandlerRun ρ → HttpResponse
  | .early r => r
  | .called _ r => r

/-- The upstream request a run attempted, when it attempted one. -/
def HandlerRun.calledReq {ρ : Type} : HandlerRun ρ → Option ρ
  | .early _ => none
  | .called r _ => some r

/-! ## WhatsApp send (lines 43-80) -/

/-- The upstream request of the WhatsApp handler: the Graph API URL and the
JSON payload sent as the fetch body. -/
structure WaRequest where
  url : String
  payload : Json
deriving Repr

def whatsappUrl (env : Env) : String :=
  "https://graph.facebook.com/v20.0/" ++ envStr env.META_PHONE_NUMBER_ID ++ "/messages"

/-- The payload built at lines 50-64: the `templateName ? _ : _` branch is a
truthiness test.  `templateParams` is modelled as absent or a JSON array
(the only shapes on which `templateParams.map` is defined); an absent value
is falsy and an array is always truthy, matching `templateParams ? _ : []`. -/
def whatsappPayload (toRecipient text templateName : Option Json)
    (templateParams : Option (List Json)) : Json :=
  if optTruthy templateName then
    .obj ([("messaging_product", .str "whatsapp")] ++ optField "to" toRecipient ++
      [("type", .str "template"),
       ("template", .obj (optField "name" templateName ++
         [("language", .obj [("code", .str "en_US")]),
          ("components",
            match templateParams with
            | some ps => .arr [.obj [("type", .str "body"),
                ("parameters", .arr (ps.map fun t =>
                  .obj [("type", .str "text"), ("text", t)]))]]
            | none => .arr [])]))])
  else
    .obj ([("messaging_product", .str "whatsapp")] ++ optField "to" toRecipient ++
      [("type", .str "text"), ("text", .obj (optField "body" text))])

/-- The POST /api/whatsapp/send handler. -/
def whatsappSend (env : Env) (toRecipient text templateName : Option Json)
    (templateParams : Option (List Json)) (outcome : FetchOutcome) :
    HandlerRun WaRequest :=
  if !envTruthy env.META_WABA_TOKEN || !envTruthy env.META_PHONE_NUMBER_ID then
    .early ⟨400, failureEnvelope "WhatsApp API credentials are not configured on the server."⟩
  else
    let req : WaRequest := ⟨whatsappUrl env, whatsappPayload toRecipient text templateName templateParams⟩
    match outcome with
    | .response status body =>
        if fetchOk status then .called req ⟨200, .obj [("ok", .bool true), ("data", body)]⟩
        else .called req ⟨status, body⟩
    | .throw msg => .called req ⟨500, failureEnvelope msg⟩

/-! ## Supabase storage (lines 82-108) -/

/-- The storage client object, holding the configuration it was built
from. -/
structure StorageClient where
  supabaseUrl : String
  supabaseKey : String
deriving Repr

/-- Modelled from the documented behaviour of @supabase/supabase-js:
`createClient(url, key)` throws "supabaseUrl is required." when `url` is
falsy and "supabaseKey is required." when `key` is falsy. -/
def createClient (url key : Option String) : Except String StorageClient :=
  if !envTruthy url then .error "supabaseUrl is required."
  else if !envTruthy key then .error "supabaseKey is required."
  else .ok ⟨envStr url, envStr key⟩

/-- The module top level of server.js: line 83 constructs the storage client
unconditionally at import time from the storage environment variables; if
that construction throws, the import fails and the process never reaches
`app.listen`. -/
def moduleInit (env : Env) : Except String StorageClient :=
  createClient env.SUPABASE_URL env.SUPABASE_SERVICE_KEY

/-- The upstream request of the sign-url handler: bucket and object key
passed to `createSignedUploadUrl`. -/
structure SignUrlRequest where
  bucket : String
  key : String
deriving Repr

/-- The object key built at line 95: the template literal
interpolating `Date.now()` (epoch milliseconds, here `now`) and the
destructured `fileName` body field. -/
def signUrlKey (now : Nat) (fileName : Option Json) : String :=
  Nat.repr now ++ "-" ++ jsFieldToString fileName

/-- Outcome of the awaited `createSignedUploadUrl` call: `success data`
models resolving with `{ data, error: null }` where `data` is an object
with the listed fields; `failure msg` models either a truthy `error`
(thrown by `if (error) throw error`) or a locally thrown exception, in both
cases caught with `e.message = msg`. -/
inductive SignUrlOutcome where
  | success (data : List (String × Json))
  | failure (msg : String)
deriving Repr

/-- The POST /api/materials/sign-url handler. -/
def signUrl (env : Env) (fileName : Option Json) (now : Nat)
    (outcome : SignUrlOutcome) : HandlerRun SignUrlRequest :=
  if !envTruthy env.SUPABASE_URL || !envTruthy env.SUPABASE_SERVICE_KEY then
    .early ⟨400, failureEnvelope "Supabase credentials are not configured on the server."⟩
  else
    let req : SignUrlRequest := ⟨"materials", signUrlKey now fileName⟩
    match outcome with
    | .success data =>
        .called req ⟨200, .obj ([("ok", .bool true)] ++ data ++ [("bucket", .str "materials")])⟩
    | .failure msg => .called req ⟨500, failureEnvelope msg⟩

/-- Modelled from the documented behaviour of @supabase/supabase-js:
`storage.from("materials").getPublicUrl(path)` deterministically builds
`<supabaseUrl>/storage/v1/object/public/materials/<path>` without any
network call and without throwing; a missing `path` interpolates as
"undefined".  (URI-encoding of unusual characters is not modelled.) -/
def getPublicUrl (client : StorageClient) (path : Option Json) : String :=
  client.supabaseUrl ++ "/storage/v1/object/public/materials/" ++ jsFieldToString path

/-- The POST /api/materials/public-url handler (lines 104-108),
parameterized by the outcome of the storage-client call (`.ok url` when it
returns, `.error m` when it throws): the handler body contains no
configuration guard and no try/catch, so a thrown exception escapes the
handler uncaught instead of becoming an error response. -/
def publicUrl (call : Except String String) : Except String HttpResponse :=
  match call with
  | .error m => .error m
  | .ok url => .ok ⟨200, .obj [("ok", .bool true), ("url", .str url)]⟩

/-- The public-url endpoint composed with the actual (non-throwing)
storage-client call, as a function of the environment the module-scope
client was constructed from. -/
def publicUrlFromEnv (env : Env) (path : Option Json) : Except String HttpResponse :=
  publicUrl (.ok (getPublicUrl ⟨envStr env.SUPABASE_URL, envStr env.SUPABASE_SERVICE_KEY⟩ path))

/-! ## Google Calendar and Sheets (lines 110-161) -/

/-- Outcome of an awaited googleapis client call, modelled from the
documented googleapis/gaxios behaviour: it resolves with `{ data }` on a
2xx upstream response and rejects otherwise — on a non-2xx upstream
response (the error then carries the upstream HTTP status) or on a
transport failure.  The handlers' catch blocks use only the error's
message. -/
inductive GoogleOutcome where
  | success (data : Json)
  | failure (upstreamStatus : Option Nat) (msg : String)
deriving Repr

/-- The upstream request of the calendar handler. -/
structure CalendarRequest where
  calendarId : String
  requestBody : Json
deriving Repr

/-- The `requestBody` built at lines 130-134. -/
def calendarRequestBody (summary description startISO endISO : Option Json) : Json :=
  .obj (optField "summary" summary ++ optField "description" description ++
    [("start", .obj (optField "dateTime" startISO)),
     ("end", .obj (optField "dateTime" endISO))])

/-- The POST /api/calendar/create handler. -/
def calendarCreate (env : Env) (summary description startISO endISO : Option Json)
    (outcome : GoogleOutcome) : HandlerRun CalendarRequest :=
  if !envTruthy env.GCP_PROJECT_EMAIL || !envTruthy env.GCP_PRIVATE_KEY ||
      !envTruthy env.CALENDAR_ID then
    .early ⟨400, failureEnvelope "Google Calendar credentials are not configured on the server."⟩
  else
    let req : CalendarRequest :=
      ⟨envStr env.CALENDAR_ID, calendarRequestBody summary description startISO endISO⟩
    match outcome with
    | .success data =>
        .called req ⟨200, .obj ([("ok", .bool true)] ++
          optField "eventId" (data.getField "id") ++
          optField "htmlLink" (data.getField "htmlLink"))⟩
    | .failure _ msg => .called req ⟨500, failureEnvelope msg⟩

/-- The upstream request of the sheets handler: the arguments of
`spreadsheets.values.append` at lines 151-156. -/
structure SheetsRequest where
  spreadsheetId : String
  range : Option Json
  valueInputOption : String
  requestBody : Json
deriving Repr

/-- The POST /api/sheets/append handler. -/
def sheetsAppend (env : Env) (range values : Option Json)
    (outcome : GoogleOutcome) : HandlerRun SheetsRequest :=
  if !envTruthy env.GCP_PROJECT_EMAIL || !envTruthy env.GCP_PRIVATE_KEY ||
      !envTruthy env.SHEET_ID then
    .early ⟨400, failureEnvelope "Google Sheets credentials are not configured on the server."⟩
  else
    let req : SheetsRequest :=
      ⟨envStr env.SHEET_ID, range, "USER_ENTERED", .obj (optField "values" values)⟩
    match outcome with
    | .success data => .called req ⟨200, .obj [("ok", .bool true), ("data", data)]⟩
    | .failure _ msg => .called req ⟨500, failureEnvelope msg⟩

/-! ## Gemini proxy (lines 163-183) -/

/-- The upstream request of the AI handler. -/
structure AiRequest where
  url : String
  payload : Json
deriving Repr

def aiUrl (env : Env) : String :=
  "https://generativelanguage.googleapis.com/v1beta/models/gemini-2.5-flash-preview-05-20:generateContent?key="
    ++ envStr env.GEMINI_API_KEY

/-- The extraction at line 178:
`data?.candidates?.[0]?.content?.parts?.[0]?.text || ""` — the optional
chain yields `undefined` (`none`) as soon as a link is missing, and the
`|| ""` replaces a falsy result by the empty string. -/
def aiExtract (data : Json) : Json :=
  let chain : Option Json :=
    ((((((data.getField "candidates").bind (Json.getIndex · 0)).bind
      (Json.getField · "content")).bind (Json.getField · "parts")).bind
      (Json.getIndex · 0)).bind (Json.getField · "text"))
  match chain with
  | some v => if v.truthy then v else .str ""
  | none => .str ""

/-- The POST /api/ai/generate handler. -/
def aiGenerate (env : Env) (prompt : Option Json) (outcome : FetchOutcome) :
    HandlerRun AiRequest :=
  if !envTruthy env.GEMINI_API_KEY then
    .early ⟨400, failureEnvelope "Gemini API key is not configured on the server."⟩
  else
    let req : AiRequest := ⟨aiUrl env,
      .obj [("contents", .arr [.obj [("role", .str "user"),
        ("parts", .arr [.obj (optField "text" prompt)])]])]⟩
    match outcome with
    | .response status body =>
        if fetchOk status then .called req ⟨200, .obj [("ok", .bool true), ("text", aiExtract body)]⟩
        else .called req ⟨status, body⟩
    | .throw msg => .called req ⟨500, failureEnvelope msg⟩

/-! ## Concrete environments for instances -/

/-- An environment with every variable set. -/
def fullEnv : Env :=
  ⟨some "wa-token", some "15550001111", some "https://proj.supabase.co",
   some "service-key", some "svc@proj.iam.gserviceaccount.com",
   some "PRIVATE-KEY", some "cal-id", some "sheet-id", some "gemini-key"⟩

/-- An environment with no variable set. -/
def emptyEnv : Env := ⟨none, none, none, none, none, none, none, none, none⟩

/-- An environment where exactly the storage credentials are missing. -/
def noStorageEnv : Env :=
  { fullEnv with SUPABASE_URL := none, SUPABASE_SERVICE_KEY := none }

/-! ## Decimal rendering: `Nat.repr` is injective

The sign-url object key interpolates `Date.now()` through `Nat.repr`; the
uniqueness part of the key property needs that distinct numbers render to
distinct strings, which we get from a value round-trip of
`Nat.toDigitsCore`. -/

/-- The numeric value of a decimal digit character. -/
def digitVal (c : Char) : Nat := c.toNat - 48

/-- The value of a string of decimal digit characters. -/
def digitsVal (l : List Char) : Nat := l.foldl (fun a c => 10 * a + digitVal c) 0

theorem digitVal_digitChar : ∀ d, d < 10 → digitVal (Nat.digitChar d) = d := by decide

theorem digitsVal_append_singleton (l : List Char) (c : Char) :
    digitsVal (l ++ [c]) = 10 * digitsVal l + digitVal c := by
  simp [digitsVal, List.foldl_append]

theorem toDigitsCore_val (fuel : Nat) : ∀ (n : Nat) (acc : List Char), n < fuel →
    ∃ ds : List Char, Nat.toDigitsCore 10 fuel n acc = ds ++ acc ∧ digitsVal ds = n := by
  induction fuel with
  | zero => intro n acc h; exact absurd h (Nat.not_lt_zero _)
  | succ fuel ih =>
    intro n acc hn
    rw [show Nat.toDigitsCore 10 (fuel+1) n acc =
        if n / 10 = 0 then Nat.digitChar (n % 10) :: acc
        else Nat.toDigitsCore 10 fuel (n / 10) (Nat.digitChar (n % 10) :: acc) from by
      simp [Nat.toDigitsCore]]
    by_cases h10 : n / 10 = 0
    · refine ⟨[Nat.digitChar (n % 10)], by simp [h10], ?_⟩
      simp only [digitsVal, List.foldl_cons, List.foldl_nil, Nat.mul_zero, Nat.zero_add]
      rw [digitVal_digitChar (n % 10) (by omega)]
      omega
    · obtain ⟨ds, hds, hval⟩ := ih (n / 10) (Nat.digitChar (n % 10) :: acc) (by omega)
      refine ⟨ds ++ [Nat.digitChar (n % 10)], by simp [h10, hds], ?_⟩
      rw [digitsVal_append_singleton, hval, digitVal_digitChar (n % 10) (by omega)]
      omega

theorem natRepr_injective {m n : Nat} (h : Nat.repr m = Nat.repr n) : m = n := by
  obtain ⟨ds1, h1, v1⟩ := toDigitsCore_val (m+1) m [] (by omega)
  obtain ⟨ds2, h2, v2⟩ := toDigitsCore_val (n+1) n [] (by omega)
  have hl : Nat.toDigitsCore 10 (m+1) m [] = Nat.toDigitsCore 10 (n+1) n [] := by
    simpa [List.asString] using congrArg String.data h
  rw [h1, h2, List.append_nil, List.append_nil] at hl
  rw [← v1, ← v2, hl]

theorem signUrlKey_ne_of_ne {t1 t2 : Nat} (f : Option Json) (h : t1 ≠ t2) :
    signUrlKey t1 f ≠ signUrlKey t2 f := by
  intro he
  refine h (natRepr_injective ?_)
  have hd : (Nat.repr t1).data ++ ("-".data ++ (jsFieldToString f).data)
      = (Nat.repr t2).data ++ ("-".data ++ (jsFieldToString f).data) := by
    simpa [signUrlKey, List.append_assoc] using congrArg String.data he
  have hdata := List.append_cancel_right hd
  cases hr1 : Nat.repr t1; cases hr2 : Nat.repr t2
  rw [hr1, hr2] at hdata
  exact congrArg String.mk hdata

/-! ## Claims -/

/-- C5: Create Signed Upload URL — with the storage configuration present,
a request with file name `f` handled at epoch-millisecond time `t1` asks
the storage provider to sign exactly the object key `<t1>-<f>` in the
"materials" bucket, and two calls with the same file name at distinct
instants `t1 ≠ t2` request different keys. -/
theorem signUrl_key_spec (env : Env) (f : String) (t1 t2 : Nat) (o : SignUrlOutcome)
    (hu : envTruthy env.SUPABASE_URL = true)
    (hk : envTruthy env.SUPABASE_SERVICE_KEY = true) (hne : t1 ≠ t2) :
    (signUrl env (some (.str f)) t1 o).calledReq
        = some ⟨"materials", Nat.repr t1 ++ "-" ++ f⟩ ∧
    signUrlKey t1 (some (.str f)) ≠ signUrlKey t2 (some (.str f)) := by
  refine ⟨?_, signUrlKey_ne_of_ne _ hne⟩
  cases o <;>
    simp [signUrl, hu, hk, HandlerRun.calledReq, signUrlKey, jsFieldToString, Json.jsToString]

/-- C5 witness: a concrete instance of the key property. -/
theorem signUrl_key_spec_instance :
    (signUrl fullEnv (some (.str "notes.pdf")) 1700000000000 (.success [])).calledReq
        = some ⟨"materials", Nat.repr 1700000000000 ++ "-" ++ "notes.pdf"⟩ ∧
    signUrlKey 1700000000000 (some (.str "notes.pdf"))
        ≠ signUrlKey 1700000000001 (some (.str "notes.pdf")) :=
  signUrl_key_spec fullEnv "notes.pdf" 1700000000000 1700000000001 (.success [])
    rfl rfl (by omega)

/-- C8: Sheets Append — with the sheets configuration present, the upstream
append call always carries `valueInputOption` "USER_ENTERED", its range is
exactly the request's `range` field, and the values grid is forwarded
unchanged as the upstream request body's `values` field. -/
theorem sheetsAppend_request_spec (env : Env) (range values : Option Json)
    (o : GoogleOutcome)
    (he : envTruthy env.GCP_PROJECT_EMAIL = true)
    (hp : envTruthy env.GCP_PRIVATE_KEY = true)
    (hs : envTruthy env.SHEET_ID = true) :
    (sheetsAppend env range values o).calledReq
      = some ⟨envStr env.SHEET_ID, range, "USER_ENTERED", .obj (optField "values" values)⟩ := by
  cases o <;> simp [sheetsAppend, he, hp, hs, HandlerRun.calledReq]

/-- C8 witness: a concrete append request. -/
theorem sheetsAppend_request_spec_instance :
    (sheetsAppend fullEnv (some (.str "Attendance!A:D"))
        (some (.arr [.arr [.str "Asha", .str "present"]])) (.success (.obj []))).calledReq
      = some ⟨envStr fullEnv.SHEET_ID, some (.str "Attendance!A:D"), "USER_ENTERED",
          .obj (optField "values" (some (.arr [.arr [.str "Asha", .str "present"]])))⟩ :=
  sheetsAppend_request_spec fullEnv (some (.str "Attendance!A:D"))
    (some (.arr [.arr [.str "Asha", .str "present"]])) (.success (.obj [])) rfl rfl rfl

/-- A field lookup that succeeds names one of the object's keys. -/
theorem getField_some_mem_keys {fs : List (String × Json)} {name : String} {v : Json}
    (h : (Json.obj fs).getField name = some v) : name ∈ fs.map Prod.fst := by
  rw [Json.getField] at h
  induction fs with
  | nil => simp [List.lookup] at h
  | cons p rest ih =>
      obtain ⟨k, w⟩ := p
      by_cases he : name = k
      · simp [he]
      · rw [List.lookup] at h
        simp only [beq_false_of_ne he] at h
        simp only [List.map_cons, List.mem_cons]
        exact Or.inr (ih h)

/-- C7: Create Calendar Event — with the calendar configuration present and
both timestamps supplied, the upstream request body carries `startISO` as
`start.dateTime` and `endISO` as `end.dateTime` unmodified, and the success
response exposes, besides `ok`, exactly `eventId` and `htmlLink`, taken
from the provider data's `id` and `htmlLink` fields and nothing else. -/
theorem calendarCreate_spec (env : Env) (summary description : Option Json)
    (sISO eISO data : Json)
    (he : envTruthy env.GCP_PROJECT_EMAIL = true)
    (hp : envTruthy env.GCP_PRIVATE_KEY = true)
    (hc : envTruthy env.CALENDAR_ID = true) :
    ∃ req resp,
      calendarCreate env summary description (some sISO) (some eISO) (.success data)
        = .called req resp
      ∧ (req.requestBody.getField "start").bind (Json.getField · "dateTime") = some sISO
      ∧ (req.requestBody.getField "end").bind (Json.getField · "dateTime") = some eISO
      ∧ resp.status = 200
      ∧ resp.body.getField "ok" = some (.bool true)
      ∧ resp.body.getField "eventId" = data.getField "id"
      ∧ resp.body.getField "htmlLink" = data.getField "htmlLink"
      ∧ ∀ name v, resp.body.getField name = some v →
          name = "ok" ∨ name = "eventId" ∨ name = "htmlLink" := by
  refine ⟨⟨envStr env.CALENDAR_ID,
      calendarRequestBody summary description (some sISO) (some eISO)⟩,
    ⟨200, .obj ([("ok", .bool true)] ++ optField "eventId" (data.getField "id")
      ++ optField "htmlLink" (data.getField "htmlLink"))⟩,
    ?_, ?_, ?_, rfl, ?_, ?_, ?_, ?_⟩
  · simp [calendarCreate, he, hp, hc]
  · cases summary <;> cases description <;>
      simp [calendarRequestBody, Json.getField, optField, List.lookup]
  · cases summary <;> cases description <;>
      simp [calendarRequestBody, Json.getField, optField, List.lookup]
  · cases hid : data.getField "id" <;> cases hlink : data.getField "htmlLink" <;>
      simp [Json.getField, optField, List.lookup]
  · cases hid : data.getField "id" <;> cases hlink : data.getField "htmlLink" <;>
      simp [Json.getField, optField, List.lookup]
  · cases hid : data.getField "id" <;> cases hlink : data.getField "htmlLink" <;>
      simp [Json.getField, optField, List.lookup]
  · intro name v h
    have hmem := getField_some_mem_keys h
    cases hid : data.getField "id" <;> cases hlink : data.getField "htmlLink" <;>
      rw [hid, hlink] at hmem <;> simp [optField] at hmem <;> tauto

/-- C7 witness: a concrete event creation. -/
theorem calendarCreate_spec_instance :
    ∃ req resp,
      calendarCreate fullEnv (some (.str "Physics")) (some (.str "Unit 4"))
          (some (.str "2025-02-01T10:00:00+05:30")) (some (.str "2025-02-01T11:00:00+05:30"))
          (.success (.obj [("id", .str "evt1"), ("htmlLink", .str "https://cal/evt1"),
            ("status", .str "confirmed")]))
        = .called req resp
      ∧ (req.requestBody.getField "start").bind (Json.getField · "dateTime")
          = some (.str "2025-02-01T10:00:00+05:30")
      ∧ (req.requestBody.getField "end").bind (Json.getField · "dateTime")
          = some (.str "2025-02-01T11:00:00+05:30")
      ∧ resp.status = 200
      ∧ resp.body.getField "ok" = some (.bool true)
      ∧ resp.body.getField "eventId"
          = (Json.obj [("id", .str "evt1"), ("htmlLink", .str "https://cal/evt1"),
              ("status", .str "confirmed")]).getField "id"
      ∧ resp.body.getField "htmlLink"
          = (Json.obj [("id", .str "evt1"), ("htmlLink", .str "https://cal/evt1"),
              ("status", .str "confirmed")]).getField "htmlLink"
      ∧ ∀ name v, resp.body.getField name = some v →
          name = "ok" ∨ name = "eventId" ∨ name = "htmlLink" :=
  calendarCreate_spec fullEnv (some (.str "Physics")) (some (.str "Unit 4"))
    (.str "2025-02-01T10:00:00+05:30") (.str "2025-02-01T11:00:00+05:30")
    (.obj [("id", .str "evt1"), ("htmlLink", .str "https://cal/evt1"),
      ("status", .str "confirmed")]) rfl rfl rfl

/-- C9: Generate Text — with the AI key present, a successful upstream
response whose JSON lacks `candidates`, or whose first candidate lacks
content parts, or whose first part lacks a `text` field, yields status 200
with body `{ ok: true, text: "" }`, not an error envelope. -/
theorem aiGenerate_empty_text (env : Env) (prompt : Option Json) (status : Nat)
    (data : Json)
    (hk : envTruthy env.GEMINI_API_KEY = true) (hok : fetchOk status = true)
    (hmiss : data.getField "candidates" = none
      ∨ ((((data.getField "candidates").bind (Json.getIndex · 0)).bind
            (Json.getField · "content")).bind (Json.getField · "parts")) = none
      ∨ ((((((data.getField "candidates").bind (Json.getIndex · 0)).bind
            (Json.getField · "content")).bind (Json.getField · "parts")).bind
            (Json.getIndex · 0)).bind (Json.getField · "text")) = none) :
    ∃ req, aiGenerate env prompt (.response status data)
        = .called req ⟨200, .obj [("ok", .bool true), ("text", .str "")]⟩ := by
  have hext : aiExtract data = .str "" := by
    rcases hmiss with h | h | h <;> simp [aiExtract, h]
  refine ⟨⟨aiUrl env, .obj [("contents", .arr [.obj [("role", .str "user"),
    ("parts", .arr [.obj (optField "text" prompt)])]])]⟩, ?_⟩
  simp [aiGenerate, hk, hok, hext]

/-- C9 witness: a provider response with no candidates at all. -/
theorem aiGenerate_empty_text_instance :
    ∃ req, aiGenerate fullEnv (some (.str "say hi")) (.response 200 (.obj []))
        = .called req ⟨200, .obj [("ok", .bool true), ("text", .str "")]⟩ :=
  aiGenerate_empty_text fullEnv (some (.str "say hi")) 200 (.obj [])
    rfl rfl (Or.inl rfl)

/-- C6 counterexample: with `templateName` present but equal to the empty
string — which is falsy — the payload built is text-mode, so presence of
`templateName` alone does not select template mode and the two modes are
not mutually exclusive on presence. -/
theorem whatsappPayload_presence_refuted :
    (whatsappPayload (some (.str "15551234567")) (some (.str "hello"))
        (some (.str "")) none).getField "type" = some (.str "text")
    ∧ ("text" : String) ≠ "template" :=
  ⟨rfl, by decide⟩

/-- C6 amended: payload mode is selected by JavaScript truthiness of
`templateName`, not bare presence.  If `templateName` is truthy the payload
has type "template" with a components list built from `templateParams`
(each parameter wrapped as a text-type entry, in order; an empty list when
`templateParams` is absent); if `templateName` is absent or falsy (for
example, present but the empty string) the payload has type "text" with
`text.body` equal to the given `text` field. -/
theorem whatsappPayload_modes (toRecipient text templateName : Option Json)
    (templateParams : Option (List Json)) :
    (optTruthy templateName = true →
      (whatsappPayload toRecipient text templateName templateParams).getField "type"
          = some (.str "template")
      ∧ ((whatsappPayload toRecipient text templateName templateParams).getField
            "template").bind (Json.getField · "components")
          = some (.arr (match templateParams with
              | some ps => [.obj [("type", .str "body"),
                  ("parameters", .arr (ps.map fun t =>
                    .obj [("type", .str "text"), ("text", t)]))]]
              | none => [])))
    ∧ (optTruthy templateName = false →
      (whatsappPayload toRecipient text templateName templateParams).getField "type"
          = some (.str "text")
      ∧ ((whatsappPayload toRecipient text templateName templateParams).getField
            "text").bind (Json.getField · "body") = text) := by
  constructor
  · intro ht
    cases toRecipient <;> cases templateName <;> cases templateParams <;>
      simp_all [whatsappPayload, optField, Json.getField, List.lookup, optTruthy]
  · intro ht
    cases toRecipient <;> cases text <;>
      simp_all [whatsappPayload, optField, Json.getField, List.lookup]

/-- C6 witness: one truthy-template instance and one text instance. -/
theorem whatsappPayload_modes_instance :
    ((whatsappPayload none none (some (.str "reminder"))
          (some [.str "Asha", .str "Friday"])).getField "type" = some (.str "template")
      ∧ ((whatsappPayload none none (some (.str "reminder"))
            (some [.str "Asha", .str "Friday"])).getField "template").bind
            (Json.getField · "components")
          = some (.arr [.obj [("type", .str "body"),
              ("parameters", .arr ([Json.str "Asha", Json.str "Friday"].map fun t =>
                .obj [("type", .str "text"), ("text", t)]))]]))
    ∧ ((whatsappPayload none (some (.str "hello")) none none).getField "type"
          = some (.str "text")
      ∧ ((whatsappPayload none (some (.str "hello")) none none).getField "text").bind
            (Json.getField · "body") = some (.str "hello")) :=
  ⟨(whatsappPayload_modes none none (some (.str "reminder"))
      (some [.str "Asha", .str "Friday"])).1 rfl,
   (whatsappPayload_modes none (some (.str "hello")) none none).2 rfl⟩

/-- C2 counterexample: a failing request whose upstream 401 response is
relayed verbatim — the relayed body is the provider's error object, which
has no `ok` field at all, so not every failing response carries the
`{ ok: false, error: string }` envelope. -/
theorem failure_envelope_refuted :
    (whatsappSend fullEnv (some (.str "15551234567")) (some (.str "hi")) none none
        (.response 401 (.obj [("error",
          .obj [("message", .str "Invalid OAuth access token.")])]))).resp
      = ⟨401, .obj [("error", .obj [("message", .str "Invalid OAuth access token.")])]⟩
    ∧ (Json.obj [("error",
          .obj [("message", .str "Invalid OAuth access token.")])]).getField "ok"
      = none :=
  ⟨rfl, rfl⟩

/-- C2 amended: every failure response produced by the handlers themselves
is the uniform envelope `{ ok: false, error: string }` — status 400 with
the envelope on missing configuration, and status 500 with the envelope on
caught exceptions and thrown provider errors (which is how sign-url,
calendar and sheets upstream failures surface); but when the whatsapp or
ai upstream call completes with a non-2xx status, the relayed body is the
provider's body unmodified, which need not have the envelope shape. -/
theorem failure_envelope_policy (env : Env)
    (toRecipient text tn fileName range values summary description sISO eISO
      prompt : Option Json) (tp : Option (List Json)) (t : Nat) (msg : String)
    (status : Nat) (body : Json) :
    ((!envTruthy env.META_WABA_TOKEN || !envTruthy env.META_PHONE_NUMBER_ID) = true →
      ∀ o, whatsappSend env toRecipient text tn tp o = .early
        ⟨400, failureEnvelope "WhatsApp API credentials are not configured on the server."⟩)
    ∧ ((!envTruthy env.SUPABASE_URL || !envTruthy env.SUPABASE_SERVICE_KEY) = true →
      ∀ o, signUrl env fileName t o = .early
        ⟨400, failureEnvelope "Supabase credentials are not configured on the server."⟩)
    ∧ ((!envTruthy env.GCP_PROJECT_EMAIL || !envTruthy env.GCP_PRIVATE_KEY ||
          !envTruthy env.CALENDAR_ID) = true →
      ∀ o, calendarCreate env summary description sISO eISO o = .early
        ⟨400, failureEnvelope "Google Calendar credentials are not configured on the server."⟩)
    ∧ ((!envTruthy env.GCP_PROJECT_EMAIL || !envTruthy env.GCP_PRIVATE_KEY ||
          !envTruthy env.SHEET_ID) = true →
      ∀ o, sheetsAppend env range values o = .early
        ⟨400, failureEnvelope "Google Sheets credentials are not configured on the server."⟩)
    ∧ ((!envTruthy env.GEMINI_API_KEY) = true →
      ∀ o, aiGenerate env prompt o = .early
        ⟨400, failureEnvelope "Gemini API key is not configured on the server."⟩)
    ∧ ((!envTruthy env.META_WABA_TOKEN || !envTruthy env.META_PHONE_NUMBER_ID) = false →
      (whatsappSend env toRecipient text tn tp (.throw msg)).resp
        = ⟨500, failureEnvelope msg⟩)
    ∧ ((!envTruthy env.SUPABASE_URL || !envTruthy env.SUPABASE_SERVICE_KEY) = false →
      (signUrl env fileName t (.failure msg)).resp = ⟨500, failureEnvelope msg⟩)
    ∧ ((!envTruthy env.GCP_PROJECT_EMAIL || !envTruthy env.GCP_PRIVATE_KEY ||
          !envTruthy env.CALENDAR_ID) = false →
      ∀ us, (calendarCreate env summary description sISO eISO (.failure us msg)).resp
        = ⟨500, failureEnvelope msg⟩)
    ∧ ((!envTruthy env.GCP_PROJECT_EMAIL || !envTruthy env.GCP_PRIVATE_KEY ||
          !envTruthy env.SHEET_ID) = false →
      ∀ us, (sheetsAppend env range values (.failure us msg)).resp
        = ⟨500, failureEnvelope msg⟩)
    ∧ ((!envTruthy env.GEMINI_API_KEY) = false →
      (aiGenerate env prompt (.throw msg)).resp = ⟨500, failureEnvelope msg⟩)
    ∧ ((!envTruthy env.META_WABA_TOKEN || !envTruthy env.META_PHONE_NUMBER_ID) = false →
      fetchOk status = false →
      (whatsappSend env toRecipient text tn tp (.response status body)).resp
        = ⟨status, body⟩)
    ∧ ((!envTruthy env.GEMINI_API_KEY) = false → fetchOk status = false →
      (aiGenerate env prompt (.response status body)).resp = ⟨status, body⟩) := by
  refine ⟨fun h o => ?_, fun h o => ?_, fun h o => ?_, fun h o => ?_, fun h o => ?_,
    fun h => ?_, fun h => ?_, fun h us => ?_, fun h us => ?_, fun h => ?_,
    fun h hf => ?_, fun h hf => ?_⟩ <;>
    simp [whatsappSend, signUrl, calendarCreate, sheetsAppend, aiGenerate,
      HandlerRun.resp, h]
  · simp [hf]
  · simp [hf]

/-- C2 witness: the envelope policy at concrete inputs — the five guarded
endpoints with no configuration, the five catch blocks, and the two
verbatim relays. -/
theorem failure_envelope_policy_instance :
    (∀ o, whatsappSend emptyEnv none none none none o = .early
      ⟨400, failureEnvelope "WhatsApp API credentials are not configured on the server."⟩)
    ∧ (∀ o, signUrl emptyEnv none 5 o = .early
      ⟨400, failureEnvelope "Supabase credentials are not configured on the server."⟩)
    ∧ (∀ o, calendarCreate emptyEnv none none none none o = .early
      ⟨400, failureEnvelope "Google Calendar credentials are not configured on the server."⟩)
    ∧ (∀ o, sheetsAppend emptyEnv none none o = .early
      ⟨400, failureEnvelope "Google Sheets credentials are not configured on the server."⟩)
    ∧ (∀ o, aiGenerate emptyEnv none o = .early
      ⟨400, failureEnvelope "Gemini API key is not configured on the server."⟩)
    ∧ (whatsappSend fullEnv none none none none (.throw "boom")).resp
        = ⟨500, failureEnvelope "boom"⟩
    ∧ (signUrl fullEnv none 5 (.failure "boom")).resp = ⟨500, failureEnvelope "boom"⟩
    ∧ (∀ us, (calendarCreate fullEnv none none none none (.failure us "boom")).resp
        = ⟨500, failureEnvelope "boom"⟩)
    ∧ (∀ us, (sheetsAppend fullEnv none none (.failure us "boom")).resp
        = ⟨500, failureEnvelope "boom"⟩)
    ∧ (aiGenerate fullEnv none (.throw "boom")).resp = ⟨500, failureEnvelope "boom"⟩
    ∧ (whatsappSend fullEnv none none none none
        (.response 404 (.obj [("code", .num 404)]))).resp
        = ⟨404, .obj [("code", .num 404)]⟩
    ∧ (aiGenerate fullEnv none (.response 404 (.obj [("code", .num 404)]))).resp
        = ⟨404, .obj [("code", .num 404)]⟩ := by
  have A := failure_envelope_policy emptyEnv none none none none none none none none
    none none none none 5 "boom" 404 (.obj [("code", .num 404)])
  have B := failure_envelope_policy fullEnv none none none none none none none none
    none none none none 5 "boom" 404 (.obj [("code", .num 404)])
  exact ⟨A.1 rfl, A.2.1 rfl, A.2.2.1 rfl, A.2.2.2.1 rfl, A.2.2.2.2.1 rfl,
    B.2.2.2.2.2.1 rfl, B.2.2.2.2.2.2.1 rfl, B.2.2.2.2.2.2.2.1 rfl,
    B.2.2.2.2.2.2.2.2.1 rfl, B.2.2.2.2.2.2.2.2.2.1 rfl,
    B.2.2.2.2.2.2.2.2.2.2.1 rfl rfl, B.2.2.2.2.2.2.2.2.2.2.2 rfl rfl⟩

/-- C3 counterexample: a calendar upstream failure carrying HTTP status 403
is answered with status 500 and the error-message envelope, not with the
upstream status and body — relaying status/body verbatim does not hold for
all six endpoints. -/
theorem upstream_relay_refuted :
    (calendarCreate fullEnv none none (some (.str "2025-02-01T10:00:00Z"))
        (some (.str "2025-02-01T11:00:00Z"))
        (.failure (some 403) "The caller does not have permission")).resp
      = ⟨500, failureEnvelope "The caller does not have permission"⟩
    ∧ (500 : Nat) ≠ 403 :=
  ⟨rfl, by decide⟩

/-- C3 amended: only the two fetch-based endpoints (whatsapp send and ai
generate) relay an upstream non-2xx response verbatim, status and body
equal to the upstream's; for sign-url, calendar and sheets an upstream
failure surfaces as a thrown client error that the catch block converts to
status 500 with the `{ ok: false, error: message }` envelope, discarding
the upstream status and body. -/
theorem upstream_relay_policy (env : Env) (toRecipient text tn fileName range
    values summary description sISO eISO prompt : Option Json)
    (tp : Option (List Json)) (t : Nat) (status : Nat) (body : Json)
    (msg : String) :
    ((!envTruthy env.META_WABA_TOKEN || !envTruthy env.META_PHONE_NUMBER_ID) = false →
      fetchOk status = false →
      (whatsappSend env toRecipient text tn tp (.response status body)).resp
        = ⟨status, body⟩)
    ∧ ((!envTruthy env.GEMINI_API_KEY) = false → fetchOk status = false →
      (aiGenerate env prompt (.response status body)).resp = ⟨status, body⟩)
    ∧ ((!envTruthy env.SUPABASE_URL || !envTruthy env.SUPABASE_SERVICE_KEY) = false →
      (signUrl env fileName t (.failure msg)).resp = ⟨500, failureEnvelope msg⟩)
    ∧ ((!envTruthy env.GCP_PROJECT_EMAIL || !envTruthy env.GCP_PRIVATE_KEY ||
          !envTruthy env.CALENDAR_ID) = false → ∀ us,
      (calendarCreate env summary description sISO eISO (.failure us msg)).resp
        = ⟨500, failureEnvelope msg⟩)
    ∧ ((!envTruthy env.GCP_PROJECT_EMAIL || !envTruthy env.GCP_PRIVATE_KEY ||
          !envTruthy env.SHEET_ID) = false → ∀ us,
      (sheetsAppend env range values (.failure us msg)).resp
        = ⟨500, failureEnvelope msg⟩) := by
  refine ⟨fun h hf => ?_, fun h hf => ?_, fun h => ?_, fun h us => ?_,
    fun h us => ?_⟩ <;>
    simp [whatsappSend, aiGenerate, signUrl, calendarCreate, sheetsAppend,
      HandlerRun.resp, h]
  · simp [hf]
  · simp [hf]

/-- C3 witness: the relay policy at concrete inputs. -/
theorem upstream_relay_policy_instance :
    (whatsappSend fullEnv none none none none
        (.response 409 (.obj [("error", .str "conflict")]))).resp
      = ⟨409, .obj [("error", .str "conflict")]⟩
    ∧ (aiGenerate fullEnv none (.response 409 (.obj [("error", .str "conflict")]))).resp
      = ⟨409, .obj [("error", .str "conflict")]⟩
    ∧ (signUrl fullEnv none 7 (.failure "bucket not found")).resp
      = ⟨500, failureEnvelope "bucket not found"⟩
    ∧ (∀ us, (calendarCreate fullEnv none none none none
        (.failure us "bucket not found")).resp = ⟨500, failureEnvelope "bucket not found"⟩)
    ∧ (∀ us, (sheetsAppend fullEnv none none (.failure us "bucket not found")).resp
      = ⟨500, failureEnvelope "bucket not found"⟩) := by
  have B := upstream_relay_policy fullEnv none none none none none none none none
    none none none none 7 409 (.obj [("error", .str "conflict")]) "bucket not found"
  exact ⟨B.1 rfl rfl, B.2.1 rfl rfl, B.2.2.1 rfl, B.2.2.2.1 rfl, B.2.2.2.2 rfl⟩

/-- C4 counterexample: with the storage configuration entirely absent, the
public-URL endpoint still answers status 200 with `{ ok: true, url }` — it
performs no configuration check and never returns 400. -/
theorem config_guard_refuted :
    publicUrlFromEnv emptyEnv (some (.str "doc.pdf"))
      = .ok ⟨200, .obj [("ok", .bool true),
          ("url", .str "undefined/storage/v1/object/public/materials/doc.pdf")]⟩
    ∧ (200 : Nat) ≠ 400 :=
  ⟨rfl, by decide⟩

/-- C4 amended: each of the five guarded endpoints answers status 400 with
the `{ ok: false, error }` envelope and attempts no upstream call when its
required configuration is absent; the public-URL endpoint, however,
performs no configuration check and answers status 200 for every
environment and path. -/
theorem config_guard_policy (env : Env) (toRecipient text tn fileName range
    values summary description sISO eISO prompt : Option Json)
    (tp : Option (List Json)) (t : Nat) :
    ((!envTruthy env.META_WABA_TOKEN || !envTruthy env.META_PHONE_NUMBER_ID) = true →
      ∀ o, whatsappSend env toRecipient text tn tp o = .early
        ⟨400, failureEnvelope "WhatsApp API credentials are not configured on the server."⟩)
    ∧ ((!envTruthy env.SUPABASE_URL || !envTruthy env.SUPABASE_SERVICE_KEY) = true →
      ∀ o, signUrl env fileName t o = .early
        ⟨400, failureEnvelope "Supabase credentials are not configured on the server."⟩)
    ∧ ((!envTruthy env.GCP_PROJECT_EMAIL || !envTruthy env.GCP_PRIVATE_KEY ||
          !envTruthy env.CALENDAR_ID) = true →
      ∀ o, calendarCreate env summary description sISO eISO o = .early
        ⟨400, failureEnvelope "Google Calendar credentials are not configured on the server."⟩)
    ∧ ((!envTruthy env.GCP_PROJECT_EMAIL || !envTruthy env.GCP_PRIVATE_KEY ||
          !envTruthy env.SHEET_ID) = true →
      ∀ o, sheetsAppend env range values o = .early
        ⟨400, failureEnvelope "Google Sheets credentials are not configured on the server."⟩)
    ∧ ((!envTruthy env.GEMINI_API_KEY) = true →
      ∀ o, aiGenerate env prompt o = .early
        ⟨400, failureEnvelope "Gemini API key is not configured on the server."⟩)
    ∧ (∀ path, publicUrlFromEnv env path = .ok ⟨200, .obj [("ok", .bool true),
        ("url", .str (getPublicUrl ⟨envStr env.SUPABASE_URL,
          envStr env.SUPABASE_SERVICE_KEY⟩ path))]⟩) := by
  refine ⟨fun h o => ?_, fun h o => ?_, fun h o => ?_, fun h o => ?_, fun h o => ?_,
    fun path => rfl⟩ <;>
    simp [whatsappSend, signUrl, calendarCreate, sheetsAppend, aiGenerate, h]

/-- C4 witness: the guard policy at concrete inputs. -/
theorem config_guard_policy_instance :
    (∀ o, whatsappSend emptyEnv (some (.str "15551234567")) none none none o = .early
      ⟨400, failureEnvelope "WhatsApp API credentials are not configured on the server."⟩)
    ∧ (∀ o, signUrl emptyEnv (some (.str "f.txt")) 9 o = .early
      ⟨400, failureEnvelope "Supabase credentials are not configured on the server."⟩)
    ∧ (∀ o, calendarCreate emptyEnv none none none none o = .early
      ⟨400, failureEnvelope "Google Calendar credentials are not configured on the server."⟩)
    ∧ (∀ o, sheetsAppend emptyEnv none none o = .early
      ⟨400, failureEnvelope "Google Sheets credentials are not configured on the server."⟩)
    ∧ (∀ o, aiGenerate emptyEnv none o = .early
      ⟨400, failureEnvelope "Gemini API key is not configured on the server."⟩)
    ∧ (∀ path, publicUrlFromEnv emptyEnv path = .ok ⟨200, .obj [("ok", .bool true),
        ("url", .str (getPublicUrl ⟨envStr emptyEnv.SUPABASE_URL,
          envStr emptyEnv.SUPABASE_SERVICE_KEY⟩ path))]⟩) := by
  have A := config_guard_policy emptyEnv (some (.str "15551234567")) none none
    (some (.str "f.txt")) none none none none none none none none 9
  exact ⟨A.1 rfl, A.2.1 rfl, A.2.2.1 rfl, A.2.2.2.1 rfl, A.2.2.2.2.1 rfl, A.2.2.2.2.2⟩

/-- C1 (code bug): with exactly the storage credentials unset, the module
top level of server.js throws while constructing the storage client at
line 83 ("supabaseUrl is required."), so the process never starts and no
endpoint — storage or otherwise — is served, contradicting independent
degradation; with the storage credentials set, module initialisation
succeeds. -/
theorem moduleInit_crashes_without_storage_config :
    moduleInit noStorageEnv = .error "supabaseUrl is required."
    ∧ moduleInit fullEnv = .ok ⟨"https://proj.supabase.co", "service-key"⟩ :=
  ⟨rfl, rfl⟩

/-- C10: the public-URL endpoint has no exception handling and no
configuration check: every returned storage-client call yields status 200
with `{ ok: true, url }` where `url` is the deterministic public URL for
the given path, and a throwing call escapes as the same uncaught exception,
never converted to the `{ ok: false, error }` envelope; it is the only
such endpoint — each of the other five checks its configuration (400
envelope when absent) and catches thrown calls (500 envelope). -/
theorem publicUrl_unguarded (u m : String) (env : Env) (path toRecipient text tn
    fileName range values summary description sISO eISO prompt : Option Json)
    (tp : Option (List Json)) (t : Nat) (msg : String) :
    publicUrl (.ok u) = .ok ⟨200, .obj [("ok", .bool true), ("url", .str u)]⟩
    ∧ publicUrl (.error m) = .error m
    ∧ publicUrlFromEnv env path = .ok ⟨200, .obj [("ok", .bool true),
        ("url", .str (getPublicUrl ⟨envStr env.SUPABASE_URL,
          envStr env.SUPABASE_SERVICE_KEY⟩ path))]⟩
    ∧ (∀ o, whatsappSend emptyEnv toRecipient text tn tp o = .early
      ⟨400, failureEnvelope "WhatsApp API credentials are not configured on the server."⟩)
    ∧ (whatsappSend fullEnv toRecipient text tn tp (.throw msg)).resp
        = ⟨500, failureEnvelope msg⟩
    ∧ (∀ o, signUrl emptyEnv fileName t o = .early
      ⟨400, failureEnvelope "Supabase credentials are not configured on the server."⟩)
    ∧ (signUrl fullEnv fileName t (.failure msg)).resp = ⟨500, failureEnvelope msg⟩
    ∧ (∀ o, calendarCreate emptyEnv summary description sISO eISO o = .early
      ⟨400, failureEnvelope "Google Calendar credentials are not configured on the server."⟩)
    ∧ (∀ us, (calendarCreate fullEnv summary description sISO eISO
        (.failure us msg)).resp = ⟨500, failureEnvelope msg⟩)
    ∧ (∀ o, sheetsAppend emptyEnv range values o = .early
      ⟨400, failureEnvelope "Google Sheets credentials are not configured on the server."⟩)
    ∧ (∀ us, (sheetsAppend fullEnv range values (.failure us msg)).resp
        = ⟨500, failureEnvelope msg⟩)
    ∧ (∀ o, aiGenerate emptyEnv prompt o = .early
      ⟨400, failureEnvelope "Gemini API key is not configured on the server."⟩)
    ∧ (aiGenerate fullEnv prompt (.throw msg)).resp = ⟨500, failureEnvelope msg⟩ := by
  refine ⟨rfl, rfl, rfl, fun o => rfl, rfl, fun o => rfl, rfl, fun o => rfl,
    fun us => rfl, fun o => rfl, fun us => rfl, fun o => rfl, rfl⟩

end Relay
